import Mathlib

/-!
Shallow embedding of `src/src_py/ftfont.py` (the pygame `ftfont` facade module).

The module wraps an external font engine (`pygame._freetype`), an external
path encoder (`pygame.encode_file_path`) and an external system-font matcher
(`pygame.sysfont.SysFont`).  Those collaborators are not under `src/`; they
are modelled as oracle parameters (`encode`, `dres`, `resolve`, the `engine`
render function) or, where the spec pins them down, as spec-modelled
definitions.  Everything else is translated directly from `ftfont.py`.
-/

/-- Python values relevant to this module, with Python truthiness.
Arguments such as `antialias`, `bold`, `italic` or the style-setter values are
arbitrary Python objects in the source; we model the cases that have a
well-defined `bool()` in this module's use. -/
inductive PyVal where
  | none
  | bool (b : Bool)
  | int (n : Int)
  | str (s : List Char)
  | bytes (b : List Nat)
deriving DecidableEq

/-- Python `bool(v)` truthiness for the modelled values. -/
def pybool : PyVal → Bool
  | PyVal.none => false
  | PyVal.bool b => b
  | PyVal.int n => decide (n ≠ 0)
  | PyVal.str s => decide (s ≠ [])
  | PyVal.bytes b => decide (b ≠ [])

/-- A text / file argument: `None`, a Unicode string (`unicode_`), or a byte
string (`bytes_`).  Unicode strings are lists of code points as `Char`; byte
strings are lists of byte values. -/
inductive PyText where
  | none
  | uni (s : List Char)
  | byt (b : List Nat)
deriving DecidableEq

/-- Python exceptions raised by the modelled code paths. -/
inductive PyError where
  | valueError (msg : String)
  | nameError (msg : String)
deriving DecidableEq

/-- A bounding rectangle as returned by the engine's render primitive
(position and size); `Font.render` discards it. -/
structure Rect where
  x : Int
  y : Int
  w : Int
  h : Int
deriving DecidableEq

/-- The observable state of one `Font` facade instance: the arguments the
facade forwarded to the engine constructor (`super().__init__`), the mutable
engine-owned attributes the facade reads and writes (`antialiased`, `wide`,
`oblique`, `underline`), the fixed tuning attributes set at construction, and
the engine's sized metrics (engine-determined; construction leaves them to
the engine, claims about them quantify over arbitrary states). -/
structure FontState where
  fileArg : PyText
  sizeArg : Int
  resolutionArg : Nat
  antialiased : PyVal
  wide : PyVal
  oblique : PyVal
  underline : PyVal
  strength : ℚ
  kerning : Bool
  origin : Bool
  pad : Bool
  ucs4 : Bool
  underline_adjustment : ℚ
  sizedAscender : Int
  sizedDescender : Int
  sizedHeight : Int
deriving DecidableEq

/-- The state built by `Font.__init__` once it reaches
`super(Font, self).__init__(file, size=size, resolution=resolution)`:
the engine constructor records its arguments, and the fixed policy
attributes are then assigned (`strength = 1.0/12.0`, `kerning = False`,
`origin = True`, `pad = True`, `ucs4 = True`, `underline_adjustment = 1.0`).
The engine initialises `antialiased` to true and the style flags to false;
the sized metrics are engine-determined (left at 0 here; no claim relates
them to construction). -/
def Font.initState (file : PyText) (size : Int) (resolution : Nat) : FontState :=
  { fileArg := file
    sizeArg := size
    resolutionArg := resolution
    antialiased := PyVal.bool true
    wide := PyVal.bool false
    oblique := PyVal.bool false
    underline := PyVal.bool false
    strength := 1/12
    kerning := false
    origin := true
    pad := true
    ucs4 := true
    underline_adjustment := 1
    sizedAscender := 0
    sizedDescender := 0
    sizedHeight := 0 }

/-- `Font.__init__(self, file, size=-1)` from `ftfont.py`, lines 29-53.

Oracle parameters for the external collaborators:
`encode` models `encode_file_path` (returns `Option.none` where the Python
function raises the requested `ValueError`); `dfont` models the module
constant `__default_font = encode_file_path(get_default_font())`; `dres`
models `get_default_resolution()` (a non-negative integer).

`int(dres * 0.6875)`: `0.6875 = 11/16` is exactly representable as a float,
so the product is exact and truncation equals `dres * 11 / 16` in `Nat`.

`if resolution == 0: kwds['resolution'] = 1` — the name `kwds` is not
defined anywhere in `__init__`, so this line raises `NameError` when
executed; the model returns that error. -/
def Font.init (encode : List Char → Option (List Nat)) (dfont : List Nat)
    (dres : Nat) (file : PyText) (size : Int) : Except PyError FontState :=
  let size := if size ≤ 1 then 1 else size
  let bfile : PyText :=
    match file with
    | PyText.uni s =>
        match encode s with
        | Option.some b => PyText.byt b
        | Option.none => PyText.uni []
    | f => f
  let file :=
    match bfile with
    | PyText.byt b => if b = dfont then PyText.none else file
    | _ => file
  match file with
  | PyText.none =>
      let resolution := dres * 11 / 16
      if resolution = 0 then
        Except.error (PyError.nameError "name kwds is not defined")
      else
        Except.ok (Font.initState PyText.none size resolution)
  | f => Except.ok (Font.initState f size 0)

instance {ε α : Type} [DecidableEq ε] [DecidableEq α] : DecidableEq (Except ε α) :=
  fun a b =>
    match a, b with
    | Except.ok x, Except.ok y =>
        if h : x = y then Decidable.isTrue (by rw [h])
        else Decidable.isFalse (fun hc => h (Except.ok.inj hc))
    | Except.error x, Except.error y =>
        if h : x = y then Decidable.isTrue (by rw [h])
        else Decidable.isFalse (fun hc => h (Except.error.inj hc))
    | Except.ok _, Except.error _ => Decidable.isFalse (fun hc => Except.noConfusion hc)
    | Except.error _, Except.ok _ => Decidable.isFalse (fun hc => Except.noConfusion hc)

/-- `text = "" if text is None else text` at the top of `Font.render`. -/
def defaultText : PyText → PyText
  | PyText.none => PyText.uni []
  | t => t

/-- `isinstance(text, unicode_) and self.__unull in text`, where
`__unull = as_unicode(r"\x00")` is the Unicode code point U+0000. -/
def uniHasNull : PyText → Bool
  | PyText.uni s => s.contains (Char.ofNat 0)
  | _ => false

/-- `isinstance(text, bytes_) and self.__bnull in text`, where
`__bnull = as_bytes("\x00")` is the raw null byte. -/
def bytHasNull : PyText → Bool
  | PyText.byt b => b.contains 0
  | _ => false

/-- `Font.render(self, text, antialias, color, background=None)` from
`ftfont.py`, lines 55-73.  The engine's render primitive
(`super(Font, self).render(text, color, background)`) is an oracle
parameter: it sees the instance state (with `antialiased` already
overwritten) and returns an (image, rect) pair or raises.

The result is `(outcome, final state, delegated?)`: `outcome` is the
returned surface or the raised exception, `final state` is the instance
state when control leaves the method, and `delegated?` records whether the
engine primitive was invoked. -/
def Font.render {α : Type}
    (engine : FontState → PyText → PyVal → PyVal → Except PyError (α × Rect))
    (st : FontState) (text : PyText) (antialias color background : PyVal) :
    Except PyError α × FontState × Bool :=
  let text := defaultText text
  if uniHasNull text then
    (Except.error (PyError.valueError "A null character was found in the text"),
      st, false)
  else if bytHasNull text then
    (Except.error (PyError.valueError "A null character was found in the text"),
      st, false)
  else
    let save := st.antialiased
    let st1 := { st with antialiased := PyVal.bool (pybool antialias) }
    match engine st1 text color background with
    | Except.ok sr => (Except.ok sr.1, { st1 with antialiased := save }, true)
    | Except.error e => (Except.error e, { st1 with antialiased := save }, true)

/-- `Font.set_bold`: `self.wide = bool(value)`. -/
def Font.set_bold (st : FontState) (value : PyVal) : FontState :=
  { st with wide := PyVal.bool (pybool value) }

/-- `Font.get_bold`: `return self.wide`. -/
def Font.get_bold (st : FontState) : PyVal :=
  st.wide

/-- `Font.set_italic`: `self.oblique = bool(value)`. -/
def Font.set_italic (st : FontState) (value : PyVal) : FontState :=
  { st with oblique := PyVal.bool (pybool value) }

/-- `Font.get_italic`: `return self.oblique`. -/
def Font.get_italic (st : FontState) : PyVal :=
  st.oblique

/-- `Font.set_underline`: `self.underline = bool(value)`. -/
def Font.set_underline (st : FontState) (value : PyVal) : FontState :=
  { st with underline := PyVal.bool (pybool value) }

/-- `Font.get_underline`: `return self.underline`. -/
def Font.get_underline (st : FontState) : PyVal :=
  st.underline

/-- `Font.get_ascent`: `return self.get_sized_ascender()`, the engine's
sized ascender unmodified. -/
def Font.get_ascent (st : FontState) : Int :=
  st.sizedAscender

/-- `Font.get_descent`: `return self.get_sized_descender()`, the engine's
sized descender unmodified. -/
def Font.get_descent (st : FontState) : Int :=
  st.sizedDescender

/-- `Font.get_height`:
`return self.get_sized_ascender() - self.get_sized_descender() + 1`. -/
def Font.get_height (st : FontState) : Int :=
  st.sizedAscender - st.sizedDescender + 1

/-- `Font.get_linesize`: `return self.get_sized_height()`. -/
def Font.get_linesize (st : FontState) : Int :=
  st.sizedHeight

/-- The default constructor closure built inside `SysFont` when
`constructor is None` (`ftfont.py`, lines 177-181):
`font = Font(fontpath, size); font.set_bold(bold); font.set_italic(italic)`.
It carries the same oracle parameters as `Font.init`. -/
def defaultConstructor (encode : List Char → Option (List Nat))
    (dfont : List Nat) (dres : Nat)
    (fontpath : PyText) (size : Int) (bold italic : PyVal) :
    Except PyError FontState :=
  match Font.init encode dfont dres fontpath size with
  | Except.ok font => Except.ok (Font.set_italic (Font.set_bold font bold) italic)
  | Except.error e => Except.error e

/-- Modelled from the spec: `pygame.sysfont.SysFont` (`_SysFont`), the
external system-font matcher, is not under `src/`.  Per the spec it
"delegates name-to-path matching entirely to an external font-matching
collaborator ... which guarantees a result is always returned — falling back
to a built-in font — never raising", and then constructs the facade via the
supplied constructor callback with the resolved path and the forwarded
size/bold/italic.  `resolve` is the total matching function (totality is the
spec's never-failing guarantee). -/
def sysfontMatch {F : Type} (resolve : List Char → PyVal → PyVal → PyText)
    (name : List Char) (size : Int) (bold italic : PyVal)
    (constructor : PyText → Int → PyVal → PyVal → F) : F :=
  constructor (resolve name bold italic) size bold italic

/-- `SysFont(name, size, bold=0, italic=0, constructor=None)` from
`ftfont.py`, lines 155-184: if no constructor is supplied, the default one
is built, then everything is forwarded to `_SysFont`. -/
def SysFont (encode : List Char → Option (List Nat)) (dfont : List Nat)
    (dres : Nat) (resolve : List Char → PyVal → PyVal → PyText)
    (name : List Char) (size : Int) (bold italic : PyVal)
    (constructor : Option (PyText → Int → PyVal → PyVal → Except PyError FontState)) :
    Except PyError FontState :=
  let ctor :=
    match constructor with
    | Option.some c => c
    | Option.none => defaultConstructor encode dfont dres
  sysfontMatch resolve name size bold italic ctor

/-- A sample path encoder for concrete evaluations: encodes every code point
to its numeric value (total, never failing). -/
def encodeSome : List Char → Option (List Nat) :=
  fun s => Option.some (s.map Char.toNat)

/-- A sample path encoder that fails on every input, for exercising the
encoding-error path of construction. -/
def encodeNone : List Char → Option (List Nat) :=
  fun _ => Option.none

/-- Modelled from the spec: `__default_font = encode_file_path(get_default_font())`
is computed from the engine collaborators `get_default_font` and
`encode_file_path`, which are not under `src/`.  The spec only calls it "a
precomputed default-font identity"; it is modelled as the byte string of the
engine's built-in font file name. -/
def defaultFontBytes : List Nat :=
  ("freesansbold.ttf".toList).map Char.toNat

/-- An engine render oracle that returns the `antialiased` attribute it
observes on the instance at delegation time, used to check what `render`
stores there before delegating. -/
def probeEngine : FontState → PyText → PyVal → PyVal → Except PyError (PyVal × Rect) :=
  fun st _ _ _ => Except.ok (st.antialiased, Rect.mk 0 0 0 0)

/-- Claim C1: for every text argument containing a null code point — a
Unicode string containing U+0000 or a byte string containing a raw null
byte — `render` raises `ValueError` and does not delegate to the engine's
render primitive: for every engine oracle the outcome is the input-validation
error, the instance state is unchanged, and the delegation flag is false. -/
theorem render_null_raises {α : Type}
    (engine : FontState → PyText → PyVal → PyVal → Except PyError (α × Rect))
    (st : FontState) (text : PyText) (antialias color background : PyVal)
    (h : uniHasNull text = true ∨ bytHasNull text = true) :
    Font.render engine st text antialias color background
      = (Except.error (PyError.valueError "A null character was found in the text"),
          st, false) := by
  cases text with
  | none => simp [uniHasNull, bytHasNull] at h
  | uni s =>
      rcases h with h | h
      · simp [Font.render, defaultText, h]
      · simp [bytHasNull] at h
  | byt b =>
      rcases h with h | h
      · simp [uniHasNull] at h
      · simp [Font.render, defaultText, uniHasNull, h]

theorem render_null_raises_witness :
    (uniHasNull (PyText.uni [Char.ofNat 0]) = true
      ∨ bytHasNull (PyText.uni [Char.ofNat 0]) = true)
  ∧ Font.render probeEngine (Font.initState PyText.none 1 49)
        (PyText.uni [Char.ofNat 0]) (PyVal.bool true) (PyVal.int 0) PyVal.none
      = (Except.error (PyError.valueError "A null character was found in the text"),
          Font.initState PyText.none 1 49, false) :=
  ⟨Or.inl (by decide),
    render_null_raises probeEngine (Font.initState PyText.none 1 49)
      (PyText.uni [Char.ofNat 0]) (PyVal.bool true) (PyVal.int 0) PyVal.none
      (Or.inl (by decide))⟩

/-- Claim C4: after any call to `render` — normal return, the local
null-character `ValueError`, or a failure raised by the delegated engine
call — the instance's stored `antialiased` flag equals its value immediately
before the call. -/
theorem render_restores_antialiased {α : Type}
    (engine : FontState → PyText → PyVal → PyVal → Except PyError (α × Rect))
    (st : FontState) (text : PyText) (antialias color background : PyVal) :
    ((Font.render engine st text antialias color background).2.1).antialiased
      = st.antialiased := by
  simp only [Font.render]
  split
  · rfl
  · split
    · rfl
    · split <;> rfl

/-- Claim C8: `render(None, antialias, color, background)` behaves
identically to `render("", antialias, color, background)`: the `None` text
is replaced by the empty string before any further processing, so for every
engine oracle and state the outcome, final state and delegation flag all
coincide. -/
theorem render_none_eq_render_empty {α : Type}
    (engine : FontState → PyText → PyVal → PyVal → Except PyError (α × Rect))
    (st : FontState) (antialias color background : PyVal) :
    Font.render engine st PyText.none antialias color background
      = Font.render engine st (PyText.uni []) antialias color background :=
  rfl

/-- Claim C6: `get_height()` equals `get_ascent() - get_descent() + 1` in
every instance state, where `get_ascent` and `get_descent` return the
engine's sized ascender and sized descender unmodified. -/
theorem get_height_ascent_descent (st : FontState) :
    Font.get_height st = Font.get_ascent st - Font.get_descent st + 1
  ∧ Font.get_ascent st = st.sizedAscender
  ∧ Font.get_descent st = st.sizedDescender :=
  ⟨rfl, rfl, rfl⟩

/-- Claim C7: `set_bold(true)` makes `get_bold()` return true, and likewise
for italic and underline; each setter stores to its engine flag (`wide` for
bold, `oblique` for italic, `underline` for underline) and the getter reads
it back; and setting any one style flag leaves the other two getters
unchanged, for every argument value. -/
theorem style_setters_getters (st : FontState) (v : PyVal) :
    Font.get_bold (Font.set_bold st (PyVal.bool true)) = PyVal.bool true
  ∧ Font.get_italic (Font.set_italic st (PyVal.bool true)) = PyVal.bool true
  ∧ Font.get_underline (Font.set_underline st (PyVal.bool true)) = PyVal.bool true
  ∧ (Font.set_bold st v).wide = PyVal.bool (pybool v)
  ∧ (Font.set_italic st v).oblique = PyVal.bool (pybool v)
  ∧ (Font.set_underline st v).underline = PyVal.bool (pybool v)
  ∧ Font.get_italic (Font.set_bold st v) = Font.get_italic st
  ∧ Font.get_underline (Font.set_bold st v) = Font.get_underline st
  ∧ Font.get_bold (Font.set_italic st v) = Font.get_bold st
  ∧ Font.get_underline (Font.set_italic st v) = Font.get_underline st
  ∧ Font.get_bold (Font.set_underline st v) = Font.get_bold st
  ∧ Font.get_italic (Font.set_underline st v) = Font.get_italic st :=
  ⟨rfl, rfl, rfl, rfl, rfl, rfl, rfl, rfl, rfl, rfl, rfl, rfl⟩

/-- Claim C5: whenever construction reaches the engine constructor, the size
it forwards is 1 for every argument `size ≤ 1` and the unchanged argument
for every `size > 1`. -/
theorem init_size_clamped (encode : List Char → Option (List Nat))
    (dfont : List Nat) (dres : Nat) (file : PyText) (size : Int) (st : FontState)
    (h : Font.init encode dfont dres file size = Except.ok st) :
    st.sizeArg = if size ≤ 1 then 1 else size := by
  simp only [Font.init] at h
  split at h
  · split at h
    · exact Except.noConfusion h
    · cases h; rfl
  · cases h; rfl

theorem init_size_clamped_witness :
    Font.init encodeSome defaultFontBytes 72 (PyText.uni ['a']) 0
        = Except.ok (Font.initState (PyText.uni ['a']) 1 0)
  ∧ (Font.initState (PyText.uni ['a']) 1 0).sizeArg
        = if (0 : Int) ≤ 1 then 1 else 0 :=
  ⟨rfl,
    init_size_clamped encodeSome defaultFontBytes 72 (PyText.uni ['a']) 0
      (Font.initState (PyText.uni ['a']) 1 0) rfl⟩

/-- Claim C2 (code bug): with the default-font marker and an engine default
resolution of 72, the resolution override forwarded to the engine is 49,
which equals `max 1 (floor (0.6875 * 72))`, and a non-default path yields
override 0; but with an engine default resolution of 1, where the claimed
formula gives `max 1 (floor 0.6875) = 1`, construction instead raises
`NameError`: the clamping line is `kwds['resolution'] = 1` and no `kwds`
variable exists, so nothing is ever forwarded to the engine. -/
theorem resolution_override_eval :
    (Font.init encodeSome defaultFontBytes 72 PyText.none (-1)).map
        FontState.resolutionArg = Except.ok 49
  ∧ 49 = max 1 (72 * 11 / 16)
  ∧ (Font.init encodeSome defaultFontBytes 72 (PyText.uni ['a']) 12).map
        FontState.resolutionArg = Except.ok 0
  ∧ Font.init encodeSome defaultFontBytes 1 PyText.none 12
        = Except.error (PyError.nameError "name kwds is not defined")
  ∧ max 1 (1 * 11 / 16) = 1 := by
  decide

/-- Claim C3 counterexample: with an encoder that fails on the path "a",
construction does not take the default-font branch — the file argument
forwarded to the engine is the original Unicode path, not the default-font
marker `None`. -/
theorem encode_failure_counterexample :
    (Font.init encodeNone defaultFontBytes 72 (PyText.uni ['a']) 12).map
        FontState.fileArg = Except.ok (PyText.uni ['a'])
  ∧ (Font.init encodeNone defaultFontBytes 72 (PyText.uni ['a']) 12).map
        FontState.fileArg ≠ Except.ok PyText.none := by
  decide

/-- Claim C3 as amended: when encoding a Unicode path fails, construction
catches the error locally (nothing propagates), but it does not take the
default-font branch: it proceeds down the ordinary-path branch, forwarding
the original un-encodable Unicode path to the engine with resolution
override 0 and the clamped size. -/
theorem encode_failure_forwards_original (encode : List Char → Option (List Nat))
    (dfont : List Nat) (dres : Nat) (s : List Char) (size : Int)
    (henc : encode s = Option.none) :
    Font.init encode dfont dres (PyText.uni s) size
      = Except.ok (Font.initState (PyText.uni s)
          (if size ≤ 1 then 1 else size) 0) := by
  simp [Font.init, henc]

theorem encode_failure_forwards_original_witness :
    encodeNone ['a'] = Option.none
  ∧ Font.init encodeNone defaultFontBytes 72 (PyText.uni ['a']) 12
      = Except.ok (Font.initState (PyText.uni ['a'])
          (if (12 : Int) ≤ 1 then 1 else 12) 0) :=
  ⟨rfl,
    encode_failure_forwards_original encodeNone defaultFontBytes 72 ['a'] 12 rfl⟩

/-- When the floor of `0.6875 *` the engine default resolution is positive,
construction never reaches the broken `kwds` line, so it succeeds on every
file argument. -/
theorem Font.init_ok (encode : List Char → Option (List Nat)) (dfont : List Nat)
    (dres : Nat) (file : PyText) (size : Int) (h : 0 < dres * 11 / 16) :
    ∃ st, Font.init encode dfont dres file size = Except.ok st := by
  simp only [Font.init]
  split
  · split
    · next hres => omega
    · exact ⟨_, rfl⟩
  · exact ⟨_, rfl⟩

/-- Claim C9: `SysFont` called with no constructor forwards the name, size,
bold and italic arguments together with a default constructor to the
external matcher; that default constructor builds `Font(fontpath, size)` and
then applies bold and italic via `set_bold` and `set_italic`; and — given
the matcher's guarantee of always resolving some path (`resolve` is total)
and an engine default resolution whose scaled floor is positive — the call
always returns a valid font facade, never failing for an unknown name. -/
theorem sysfont_default_constructor_total
    (encode : List Char → Option (List Nat)) (dfont : List Nat) (dres : Nat)
    (resolve : List Char → PyVal → PyVal → PyText)
    (name : List Char) (size : Int) (bold italic : PyVal)
    (h : 2 ≤ dres) :
    SysFont encode dfont dres resolve name size bold italic Option.none
      = sysfontMatch resolve name size bold italic
          (defaultConstructor encode dfont dres)
  ∧ ∃ f, Font.init encode dfont dres (resolve name bold italic) size
        = Except.ok f
      ∧ SysFont encode dfont dres resolve name size bold italic Option.none
        = Except.ok (Font.set_italic (Font.set_bold f bold) italic) := by
  have hres : 0 < dres * 11 / 16 := by omega
  obtain ⟨f, hf⟩ :=
    Font.init_ok encode dfont dres (resolve name bold italic) size hres
  exact ⟨rfl, f, hf, by simp [SysFont, sysfontMatch, defaultConstructor, hf]⟩

theorem sysfont_default_constructor_total_witness :
    2 ≤ 72
  ∧ (SysFont encodeSome defaultFontBytes 72 (fun _ _ _ => PyText.uni ['a'])
        ['x'] 12 (PyVal.bool true) (PyVal.bool false) Option.none
      = sysfontMatch (fun _ _ _ => PyText.uni ['a']) ['x'] 12 (PyVal.bool true)
          (PyVal.bool false) (defaultConstructor encodeSome defaultFontBytes 72)
    ∧ ∃ f, Font.init encodeSome defaultFontBytes 72
          ((fun _ _ _ => PyText.uni ['a']) ['x'] (PyVal.bool true) (PyVal.bool false)) 12
        = Except.ok f
      ∧ SysFont encodeSome defaultFontBytes 72 (fun _ _ _ => PyText.uni ['a'])
            ['x'] 12 (PyVal.bool true) (PyVal.bool false) Option.none
        = Except.ok (Font.set_italic (Font.set_bold f (PyVal.bool true))
            (PyVal.bool false))) :=
  ⟨by decide,
    sysfont_default_constructor_total encodeSome defaultFontBytes 72
      (fun _ _ _ => PyText.uni ['a']) ['x'] 12 (PyVal.bool true)
      (PyVal.bool false) (by decide)⟩

/-- Claim C10: the style setters coerce their argument with `bool()` before
storing, so for every argument value the stored `wide`, `oblique` and
`underline` flags are exactly the boolean truthiness of the argument and the
getters return that boolean; and `render` coerces its antialias argument
with `bool()`, so the `antialiased` flag the engine observes at delegation
time is exactly that boolean. -/
theorem style_flags_coerced (st : FontState) (v : PyVal) (text : PyText)
    (antialias color background : PyVal)
    (h : uniHasNull (defaultText text) = false
        ∧ bytHasNull (defaultText text) = false) :
    (Font.set_bold st v).wide = PyVal.bool (pybool v)
  ∧ (Font.set_italic st v).oblique = PyVal.bool (pybool v)
  ∧ (Font.set_underline st v).underline = PyVal.bool (pybool v)
  ∧ Font.get_bold (Font.set_bold st v) = PyVal.bool (pybool v)
  ∧ Font.get_italic (Font.set_italic st v) = PyVal.bool (pybool v)
  ∧ Font.get_underline (Font.set_underline st v) = PyVal.bool (pybool v)
  ∧ (Font.render probeEngine st text antialias color background).1
      = Except.ok (PyVal.bool (pybool antialias)) := by
  refine ⟨rfl, rfl, rfl, rfl, rfl, rfl, ?_⟩
  simp [Font.render, h.1, h.2, probeEngine]

theorem style_flags_coerced_witness :
    (uniHasNull (defaultText (PyText.uni ['a'])) = false
      ∧ bytHasNull (defaultText (PyText.uni ['a'])) = false)
  ∧ ((Font.set_bold (Font.initState PyText.none 1 49) (PyVal.int 5)).wide
        = PyVal.bool (pybool (PyVal.int 5))
    ∧ (Font.set_italic (Font.initState PyText.none 1 49) (PyVal.int 5)).oblique
        = PyVal.bool (pybool (PyVal.int 5))
    ∧ (Font.set_underline (Font.initState PyText.none 1 49) (PyVal.int 5)).underline
        = PyVal.bool (pybool (PyVal.int 5))
    ∧ Font.get_bold (Font.set_bold (Font.initState PyText.none 1 49) (PyVal.int 5))
        = PyVal.bool (pybool (PyVal.int 5))
    ∧ Font.get_italic (Font.set_italic (Font.initState PyText.none 1 49) (PyVal.int 5))
        = PyVal.bool (pybool (PyVal.int 5))
    ∧ Font.get_underline
          (Font.set_underline (Font.initState PyText.none 1 49) (PyVal.int 5))
        = PyVal.bool (pybool (PyVal.int 5))
    ∧ (Font.render probeEngine (Font.initState PyText.none 1 49) (PyText.uni ['a'])
          (PyVal.str ['y']) (PyVal.int 0) PyVal.none).1
        = Except.ok (PyVal.bool (pybool (PyVal.str ['y'])))) :=
  ⟨⟨rfl, rfl⟩,
    style_flags_coerced (Font.initState PyText.none 1 49) (PyVal.int 5)
      (PyText.uni ['a']) (PyVal.str ['y']) (PyVal.int 0) PyVal.none ⟨rfl, rfl⟩⟩
